import Mathlib

/-!
Verification development for the HackEurope frontend session layer.

This file is a shallow embedding of the client-side real-time
synchronization core of the repository:

* `src/frontend/src/components/Map.jsx` — zone geometry resolution
  (`getZoneGeo`, `buildHotzoneFeatures`);
* `src/frontend/src/App.jsx` — the entity stores and the message handlers
  registered with the session hook (`addLog`, `addIncident`, `onInit`,
  `onModeChange`, `onShips`, `onIncident`, `onEvaluation`, `onAgentStatus`,
  `onThresholdUpdate`, `onReport`, `handleZoneChange`);
* `src/frontend/src/hooks/useWebSocket.js` — the typed dispatch function
  and the connection state machine (connect, heartbeat interval, exponential
  backoff reconnect, effect cleanup).

JavaScript objects used as string-keyed dictionaries are embedded as
association lists; JavaScript `Set` values as lists with membership
semantics; JavaScript numbers occurring in geometry as rationals; the
wall-clock timestamp string produced by `new Date().toLocaleTimeString`
is injected as an ambient `now` field of the application state.
-/

namespace HackEurope

/-! ## Association-list dictionaries (JS objects keyed by strings) -/

/-- Lookup `obj[k]` in an association list embedding a JS object. -/
def lookupKey {α : Type} (l : List (String × α)) (k : String) : Option α :=
  match l.find? (fun p => p.1 == k) with
  | some p => some p.2
  | none => none

/-- Embedding of the JS object spread `\x7b ...prev, [k]: v \x7d`: the binding for
`k` becomes `v`, every other binding is unchanged. -/
def setKey {α : Type} (l : List (String × α)) (k : String) (v : α) : List (String × α) :=
  (k, v) :: l.filter (fun p => p.1 != k)

/-! ## Zone geometry (Map.jsx) -/

/-- Override geometry of a zone: `\x7b centerLon, centerLat, radius \x7d`
(Map.jsx `getZoneGeo` return shape, App.jsx `zoneOverrides` values). -/
structure Geo where
  centerLon : Rat
  centerLat : Rat
  radius : Rat
deriving Repr, DecidableEq

/-- Canonical server-sent zone record (bounding box plus color), as consumed
by Map.jsx (`hz.min_lon`, `hz.max_lon`, `hz.min_lat`, `hz.max_lat`, `hz.color`). -/
structure Hotzone where
  min_lon : Rat
  max_lon : Rat
  min_lat : Rat
  max_lat : Rat
  color : String
deriving Repr, DecidableEq

/-- The `overrides`-absent branch of Map.jsx `getZoneGeo` (lines 60–64):
center of the server bounding box and half its larger extent. -/
def canonicalGeo (hz : Hotzone) : Geo :=
  { centerLon := (hz.min_lon + hz.max_lon) / 2
    centerLat := (hz.min_lat + hz.max_lat) / 2
    radius := max ((hz.max_lon - hz.min_lon) / 2) ((hz.max_lat - hz.min_lat) / 2) }

/-- Map.jsx `getZoneGeo(name, hz, overrides)` (lines 57–65): the local
override geometry when one exists for `name`, else the canonical geometry. -/
def getZoneGeo (name : String) (hz : Hotzone) (overrides : List (String × Geo)) : Geo :=
  match lookupKey overrides name with
  | some ov => ov
  | none => canonicalGeo hz

/-- One feature produced for a zone by Map.jsx `buildHotzoneFeatures`.
The rendered polygon is `circlePolygon(geo.centerLon, geo.centerLat, geo.radius)`,
a pure function of `geo`, so the feature records the resolved geometry. -/
structure HotzoneFeature where
  name : String
  color : String
  geo : Geo
deriving Repr, DecidableEq

/-- Map.jsx `buildHotzoneFeatures(hotzones, overrides)` (lines 67–76): one
feature per zone, with geometry resolved through `getZoneGeo`. -/
def buildHotzoneFeatures (hotzones : List (String × Hotzone))
    (overrides : List (String × Geo)) : List HotzoneFeature :=
  hotzones.map (fun p => { name := p.1, color := p.2.color, geo := getZoneGeo p.1 p.2 overrides })

/-! ## Message payloads (App.jsx handler inputs) -/

/-- A vessel record from the `ships`/`init` payload. -/
structure Ship where
  mmsi : String
  name : String
  lat : Rat
  lon : Rat
  sog : Rat
  cog : Rat
  status : String
  type : String
  in_hotzone : Option String
  trail : List (Rat × Rat)
deriving Repr, DecidableEq

/-- An incident record from the `incident` payload; the last three fields are
absent until patched in by an `evaluation` message. -/
structure Incident where
  id : String
  type : String
  severity : String
  region : String
  ship_name : String
  mmsi : String
  lat : Rat
  lon : Rat
  duration_minutes : Option Rat
  confidence_score : Option Int
  incident_type : Option String
  commodities_affected : Option (List String)
deriving Repr, DecidableEq

/-- Payload of an `evaluation` message. -/
structure EvaluationData where
  incident_id : String
  confidence_score : Option Int
  incident_type : Option String
  commodities_affected : Option (List String)
  region : String
deriving Repr, DecidableEq

/-- Payload of an `agent_status` message; also the shape stored in the
`agentStatus` state (`setAgentStatus(data)`). -/
structure AgentStatusData where
  stage : String
  message : String
  round : Int := 0
  approved : Bool := false
  quality_score : Int := 0
deriving Repr, DecidableEq

/-- Payload of a `threshold_update` message. -/
structure ThresholdData where
  region : String
  incident_count : Int
  threshold : Int
deriving Repr, DecidableEq

/-- Payload of a `report` message (fields read by App.jsx). -/
structure ReportData where
  title : String
  overall_confidence : Option Int
deriving Repr, DecidableEq

/-- Payload of an `init` snapshot message. -/
structure InitData where
  ships : Option (List Ship)
  hotzones : Option (List (String × Hotzone))
  demo_mode : Bool
  has_live_key : Bool
deriving Repr, DecidableEq

/-- Payload of a `mode_change` message. -/
structure ModeChangeData where
  demo_mode : Bool
  has_live_key : Bool
deriving Repr, DecidableEq

/-- An activity-log entry (App.jsx `addLog` input, with the timestamp and
optional decoration fields attached by the individual handlers). -/
structure LogEntry where
  kind : String
  text : String
  ts : String := ""
  severity : Option String := none
  approved : Option Bool := none
  stage : Option String := none
  round : Option Int := none
deriving Repr, DecidableEq

/-! ## Application state (App.jsx component state) -/

/-- The App.jsx component state: every `useState` cell touched by the message
handlers, plus the `incidentIds` ref (the incident de-duplication set,
embedded as a list with membership semantics) and the ambient wall-clock
string `now` consumed by `addLog`. -/
structure AppState where
  ships : List Ship
  hotzones : List (String × Hotzone)
  incidents : List Incident
  agentStatus : AgentStatusData
  thresholds : List (String × ThresholdData)
  report : Option ReportData
  showReport : Bool
  connected : Bool
  demoMode : Bool
  hasLiveKey : Bool
  modeSwitching : Bool
  investigating : Bool
  zoneOverrides : List (String × Geo)
  logs : List LogEntry
  incidentIds : List String
  now : String
deriving Repr, DecidableEq

/-- The initial App.jsx state (the `useState` initializers). -/
def initialAppState : AppState :=
  { ships := []
    hotzones := []
    incidents := []
    agentStatus := { stage := "idle", message := "Connecting..." }
    thresholds := []
    report := none
    showReport := false
    connected := false
    demoMode := false
    hasLiveKey := false
    modeSwitching := false
    investigating := false
    zoneOverrides := []
    logs := []
    incidentIds := []
    now := "" }

namespace App

/-- App.jsx `addLog` (lines 32–35): prepend the entry stamped with the current
time and keep the 300 most recent entries. -/
def addLog (entry : LogEntry) (s : AppState) : AppState :=
  { s with logs := ({ entry with ts := s.now } :: s.logs).take 300 }

/-- App.jsx `addIncident` (lines 37–41): drop the incident if its id is already
in the de-duplication set; otherwise admit the id, prepend the incident and
keep the 50 most recent. -/
def addIncident (incident : Incident) (s : AppState) : AppState :=
  if incident.id ∈ s.incidentIds then s
  else
    { s with incidentIds := incident.id :: s.incidentIds
             incidents := (incident :: s.incidents).take 50 }

/-- App.jsx `onConnect` handler. -/
def onConnect (s : AppState) : AppState :=
  { s with connected := true }

/-- App.jsx `onDisconnect` handler. -/
def onDisconnect (s : AppState) : AppState :=
  { s with connected := false }

/-- App.jsx `onInit` (lines 46–55): replace ships and hotzones, record mode
flags, and clear the incident de-duplication set; incidents, evaluations,
logs, thresholds and zone overrides are left untouched. -/
def onInit (data : InitData) (s : AppState) : AppState :=
  { s with ships := data.ships.getD []
           hotzones := data.hotzones.getD []
           demoMode := data.demo_mode
           hasLiveKey := data.has_live_key
           modeSwitching := false
           incidentIds := [] }

/-- App.jsx `onModeChange` (lines 56–69): record mode flags, reset ships,
incidents, thresholds, report, agent status, logs and the de-duplication
set, then log the switch. -/
def onModeChange (data : ModeChangeData) (s : AppState) : AppState :=
  let s1 :=
    { s with demoMode := data.demo_mode
             hasLiveKey := data.has_live_key
             modeSwitching := false
             ships := []
             incidents := []
             thresholds := []
             report := none
             showReport := false
             agentStatus := { stage := "idle", message := "Monitoring..." }
             logs := []
             incidentIds := [] }
  addLog { kind := "system",
           text := "Switched to " ++ (if data.demo_mode then "DEMO" else "LIVE") ++ " mode" } s1

/-- App.jsx `onShips` (line 70): whole-collection replace. -/
def onShips (data : List Ship) (s : AppState) : AppState :=
  { s with ships := data }

/-- App.jsx `onIncident` (lines 71–74): `addIncident` then an activity-log entry. -/
def onIncident (data : Incident) (s : AppState) : AppState :=
  addLog
    { kind := "incident"
      text := (if data.type == "ais_dropout" then "AIS DROPOUT" else "PROXIMITY") ++ " — " ++
              (if data.ship_name == "" then "MMSI " ++ data.mmsi else data.ship_name) ++
              " [" ++ data.region ++ "]"
      severity := some data.severity }
    (addIncident data s)

/-- App.jsx `onEvaluation` (lines 75–82): patch the matching incident in place
(identity on every other incident), then log. -/
def onEvaluation (data : EvaluationData) (s : AppState) : AppState :=
  addLog
    { kind := "eval"
      text := "Evaluator: " ++ (data.incident_type.getD "unknown") ++ " — " ++
              (match data.confidence_score with
               | some c => toString c
               | none => "undefined") ++ "% confidence [" ++ data.region ++ "]" }
    { s with incidents := s.incidents.map (fun inc =>
        if inc.id == data.incident_id then
          { inc with confidence_score := data.confidence_score
                     incident_type := data.incident_type
                     commodities_affected := data.commodities_affected }
        else inc) }

/-- App.jsx `onAgentStatus` (lines 83–92): last-write-wins status value plus a
stage-dependent log entry. -/
def onAgentStatus (data : AgentStatusData) (s : AppState) : AppState :=
  let s1 := { s with agentStatus := data }
  if data.stage == "error" then
    addLog { kind := "error", text := "Pipeline error: " ++ data.message } s1
  else if data.stage == "critic_result" then
    addLog { kind := "critic"
             text := "Critic round " ++ toString data.round ++ ": " ++
                     (if data.approved then "✓ APPROVED" else "✗ REVISE") ++
                     " (quality " ++ toString data.quality_score ++ "/100)"
             approved := some data.approved } s1
  else if data.stage != "idle" && data.stage != "reporter_stream" then
    addLog { kind := "agent"
             text := if data.message == "" then data.stage else data.message
             stage := some data.stage
             round := some data.round } s1
  else s1

/-- App.jsx `onThresholdUpdate` (lines 93–98): upsert the per-region threshold
record; log when the threshold is reached. -/
def onThresholdUpdate (data : ThresholdData) (s : AppState) : AppState :=
  let s1 := { s with thresholds := setKey s.thresholds data.region data }
  if data.incident_count ≥ data.threshold then
    addLog { kind := "threshold"
             text := "Threshold reached: " ++ toString data.incident_count ++ "/" ++
                     toString data.threshold ++ " incidents in " ++ data.region ++
                     " — launching reporter" } s1
  else s1

/-- App.jsx `onReport` (lines 99–104): store and show the report, then log. -/
def onReport (data : ReportData) (s : AppState) : AppState :=
  addLog { kind := "report"
           text := "Report ready: \"" ++
                   (if data.title == "" then "Intelligence Report" else data.title) ++
                   "\" — " ++
                   (match data.overall_confidence with
                    | some c => toString c
                    | none => "?") ++ "% confidence" }
    { s with report := some data, showReport := true, investigating := false }

/-- App.jsx `handleZoneChange` (lines 25–27): record a local override geometry
for the named zone (an edit intent from the map, not a server message). -/
def handleZoneChange (name : String) (geo : Geo) (s : AppState) : AppState :=
  { s with zoneOverrides := setKey s.zoneOverrides name geo }

end App

/-! ## Message envelopes and typed dispatch (useWebSocket.js lines 10–24) -/

/-- A decoded inbound envelope `\x7b type, data \x7d`. The constructor is the
discriminant string of the wire envelope; `unknown ty` stands for any envelope
whose `type` is none of the nine recognized strings. -/
inductive Envelope where
  | init (d : InitData)
  | ships (d : List Ship)
  | incident (d : Incident)
  | evaluation (d : EvaluationData)
  | agent_status (d : AgentStatusData)
  | threshold_update (d : ThresholdData)
  | report (d : ReportData)
  | mode_change (d : ModeChangeData)
  | heartbeat
  | unknown (ty : String)
deriving Repr, DecidableEq

/-- The `msg.type` discriminant string of an envelope. -/
def Envelope.type : Envelope → String
  | .init _ => "init"
  | .ships _ => "ships"
  | .incident _ => "incident"
  | .evaluation _ => "evaluation"
  | .agent_status _ => "agent_status"
  | .threshold_update _ => "threshold_update"
  | .report _ => "report"
  | .mode_change _ => "mode_change"
  | .heartbeat => "heartbeat"
  | .unknown ty => ty

/-- The handler registration passed to `useWebSocket(handlers)`: one optional
handler per recognized message type plus the connect/disconnect callbacks.
`none` embeds an absent property (the `h.onX?.(...)` optional call is then
a no-op). -/
structure Handlers (σ : Type) where
  onConnect : Option (σ → σ) := none
  onDisconnect : Option (σ → σ) := none
  onInit : Option (InitData → σ → σ) := none
  onShips : Option (List Ship → σ → σ) := none
  onIncident : Option (Incident → σ → σ) := none
  onEvaluation : Option (EvaluationData → σ → σ) := none
  onAgentStatus : Option (AgentStatusData → σ → σ) := none
  onThresholdUpdate : Option (ThresholdData → σ → σ) := none
  onReport : Option (ReportData → σ → σ) := none
  onModeChange : Option (ModeChangeData → σ → σ) := none

/-- The optional-chaining call `f?.(d)` applied to a state transformer. -/
def callOpt {α σ : Type} (f : Option (α → σ → σ)) (d : α) (s : σ) : σ :=
  match f with
  | some g => g d s
  | none => s

/-- useWebSocket.js `dispatch` (lines 10–24): switch on `msg.type`, invoke the
matching handler from the given registration; `heartbeat` and unrecognized
types are explicit no-ops (the `break`/`default: break` arms). -/
def dispatch {σ : Type} (h : Handlers σ) (msg : Envelope) (s : σ) : σ :=
  match msg with
  | .init d => callOpt h.onInit d s
  | .ships d => callOpt h.onShips d s
  | .incident d => callOpt h.onIncident d s
  | .evaluation d => callOpt h.onEvaluation d s
  | .agent_status d => callOpt h.onAgentStatus d s
  | .threshold_update d => callOpt h.onThresholdUpdate d s
  | .report d => callOpt h.onReport d s
  | .mode_change d => callOpt h.onModeChange d s
  | .heartbeat => s
  | .unknown _ => s

/-- The concrete registration App.jsx passes to `useWebSocket` (lines 43–105). -/
def appHandlers : Handlers AppState :=
  { onConnect := some App.onConnect
    onDisconnect := some App.onDisconnect
    onInit := some App.onInit
    onShips := some App.onShips
    onIncident := some App.onIncident
    onEvaluation := some App.onEvaluation
    onAgentStatus := some App.onAgentStatus
    onThresholdUpdate := some App.onThresholdUpdate
    onReport := some App.onReport
    onModeChange := some App.onModeChange }

/-! ## The session hook state and frame delivery (useWebSocket.js lines 5–8, 46–48)

`handlersRef` is a mutable ref rebound on every render
(`handlersRef.current = handlers`, line 8); `dispatch` reads
`handlersRef.current` at dispatch time (line 11). -/

/-- The hook-level state visible to frame delivery: the current handler
registration (the ref cell) and the application state the handlers mutate. -/
structure HookState (σ : Type) where
  handlersRef : Handlers σ
  appState : σ

/-- A re-render of the component with a (possibly new) handler registration:
`handlersRef.current = handlers` (useWebSocket.js line 8). -/
def rerender {σ : Type} (h : Handlers σ) (st : HookState σ) : HookState σ :=
  { st with handlersRef := h }

/-- useWebSocket.js `socket.onmessage` (lines 46–48):
`try \x7b dispatch(JSON.parse(e.data)) \x7d catch \x7b\x7d`. The platform
`JSON.parse` is embedded by its result: `Except.error` for a payload that is
not valid JSON (the thrown exception is caught and discarded, nothing runs),
`Except.ok msg` for a decoded envelope (dispatched against the current
registration). -/
def onmessage {σ : Type} (parseResult : Except String Envelope) (st : HookState σ) :
    HookState σ :=
  match parseResult with
  | .error _ => st
  | .ok msg => { st with appState := dispatch st.handlersRef msg st.appState }

/-! ## Connection state machine (useWebSocket.js lines 26–70) -/

/-- The transport ready states (`WebSocket.readyState`); `opened` is
`WebSocket.OPEN`. -/
inductive ReadyState where
  | connecting
  | opened
  | closing
  | closed
deriving Repr, DecidableEq

/-- The per-socket state the effect manipulates: the transport ready state,
whether the 25 s heartbeat interval stored in `socket._pingInterval` is still
scheduled (not yet cleared by `clearInterval`), and whether the `onclose`
handler is still attached (not yet nulled by the cleanup). -/
structure SocketState where
  readyState : ReadyState
  pingIntervalActive : Bool
  oncloseAttached : Bool
deriving Repr, DecidableEq

/-- The client-to-server heartbeat frame `JSON.stringify(\x7b type: 'ping' \x7d)`
(useWebSocket.js line 40). -/
def pingFrame : String := "\x7b\"type\":\"ping\"\x7d"

/-- The heartbeat interval period (useWebSocket.js line 42). -/
def heartbeatIntervalMs : Nat := 25000

/-- The reconnect backoff base delay (useWebSocket.js line 54). -/
def baseDelayMs : Nat := 1000

/-- The reconnect backoff cap (useWebSocket.js line 54). -/
def capDelayMs : Nat := 15000

/-- useWebSocket.js line 54: `Math.min(1000 * 2 ** retries, 15000)`. -/
def backoffDelay (retries : Nat) : Nat :=
  min (baseDelayMs * 2 ^ retries) capDelayMs

/-- The connection-effect state (useWebSocket.js lines 26–70): the current
socket (`ws.current`), the `retries` counter, the pending reconnect timer
(`retryTimeout`, recorded with its delay), the log of delays passed to
`setTimeout(connect, delay)` in order, the ping frames sent so far, and
whether the effect cleanup has run. -/
structure WSState where
  socket : Option SocketState
  retries : Nat
  retryPending : Option Nat
  scheduledDelays : List Nat
  sentFrames : List String
  cleanedUp : Bool
deriving Repr, DecidableEq

/-- The state when the effect starts (line 27–28): no socket yet, no timers. -/
def wsInit : WSState :=
  { socket := none
    retries := 0
    retryPending := none
    scheduledDelays := []
    sentFrames := []
    cleanedUp := false }

/-- The discrete events driving the connection effect. -/
inductive WSEvent where
  /-- `connect()` runs: the initial call (line 62) or the reconnect timer
  firing (line 56). A fresh socket is created with its handlers attached. -/
  | connectStart
  /-- `socket.onopen` fires (lines 34–44). -/
  | transportOpen
  /-- The heartbeat interval callback runs (lines 38–42). -/
  | heartbeatTick
  /-- The transport closes and the socket's close event is delivered
  (lines 50–57 when `onclose` is still attached; nothing when it was nulled). -/
  | transportClose
  /-- `socket.onerror` fires (line 59): the handler calls `socket.close()`. -/
  | transportError
  /-- The effect cleanup — session teardown — runs (lines 63–69):
  `clearTimeout(retryTimeout)`, then `ws.current.onclose = null` and
  `ws.current.close()`. -/
  | cleanup
deriving Repr, DecidableEq

/-- One step of the connection effect. Each arm transcribes the corresponding
event handler in useWebSocket.js. -/
def wsStep (e : WSEvent) (s : WSState) : WSState :=
  match e with
  | .connectStart =>
      { s with socket := some { readyState := .connecting
                                pingIntervalActive := false
                                oncloseAttached := true }
               retryPending := none }
  | .transportOpen =>
      match s.socket with
      | some sock =>
          { s with retries := 0
                   socket := some { sock with readyState := .opened
                                              pingIntervalActive := true } }
      | none => s
  | .heartbeatTick =>
      match s.socket with
      | some sock =>
          if sock.pingIntervalActive ∧ sock.readyState = .opened then
            { s with sentFrames := s.sentFrames ++ [pingFrame] }
          else s
      | none => s
  | .transportClose =>
      match s.socket with
      | some sock =>
          if sock.oncloseAttached then
            let delay := backoffDelay s.retries
            { s with socket := some { sock with readyState := .closed
                                                pingIntervalActive := false }
                     retries := s.retries + 1
                     retryPending := some delay
                     scheduledDelays := s.scheduledDelays ++ [delay] }
          else
            { s with socket := some { sock with readyState := .closed } }
      | none => s
  | .transportError =>
      match s.socket with
      | some sock => { s with socket := some { sock with readyState := .closing } }
      | none => s
  | .cleanup =>
      let s1 := { s with retryPending := none, cleanedUp := true }
      match s1.socket with
      | some sock =>
          { s1 with socket := some { sock with oncloseAttached := false
                                               readyState := .closing } }
      | none => s1

/-- Run a list of events from a given state, oldest first. -/
def wsRunFrom (s : WSState) (es : List WSEvent) : WSState :=
  es.foldl (fun st e => wsStep e st) s

/-- Run a list of events from the fresh effect state. -/
def wsRun (es : List WSEvent) : WSState :=
  wsRunFrom wsInit es

/-- The event trace of `k` consecutive disconnects with no intervening
successful open: each cycle is a `connect()` whose transport closes. -/
def disconnectEvents : Nat → List WSEvent
  | 0 => []
  | k + 1 => disconnectEvents k ++ [.connectStart, .transportClose]

/-! ## Concrete example values used by counterexamples and witnesses -/

/-- A canonical server zone record for the zone named `Hormuz`. -/
def hormuzHz : Hotzone :=
  { min_lon := 50, max_lon := 60, min_lat := 20, max_lat := 30, color := "#ff6b00" }

/-- A local override geometry for `Hormuz`, distinct from the canonical one. -/
def hormuzOverride : Geo := { centerLon := 10, centerLat := 10, radius := 5 }

/-- An application state holding the `Hormuz` zone and a local override for it. -/
def c1State : AppState :=
  { initialAppState with
      hotzones := [("Hormuz", hormuzHz)]
      zoneOverrides := [("Hormuz", hormuzOverride)] }

/-- A sample `mode_change` payload. -/
def sampleModeChange : ModeChangeData := { demo_mode := true, has_live_key := false }

/-- A sample `init` payload. -/
def sampleInit : InitData :=
  { ships := none, hotzones := none, demo_mode := true, has_live_key := false }

/-- An application state that has already admitted one incident id. -/
def c3State : AppState := { initialAppState with incidentIds := ["inc-1"] }

/-- A sample incident payload. -/
def sampleIncident : Incident :=
  { id := "inc-1", type := "ais_dropout", severity := "high", region := "Strait of Hormuz"
    ship_name := "OTHELLO", mmsi := "351945000", lat := 26, lon := 56
    duration_minutes := some 42, confidence_score := none, incident_type := none
    commodities_affected := none }

/-- A sample evaluation payload referencing an id never admitted. -/
def sampleEvaluation : EvaluationData :=
  { incident_id := "inc-404", confidence_score := some 87
    incident_type := some "sts_transfer", commodities_affected := some ["crude"]
    region := "Strait of Hormuz" }

/-- A connection state with an open socket and a live heartbeat interval. -/
def openWS : WSState := wsRun [.connectStart, .transportOpen]

/-! ## Helper lemmas on the connection machine -/

theorem wsRunFrom_append (s : WSState) (es fs : List WSEvent) :
    wsRunFrom s (es ++ fs) = wsRunFrom (wsRunFrom s es) fs :=
  List.foldl_append _ _ _ _

/-- One disconnect cycle (`connect()` then transport close) from any state:
the delay scheduled is `backoffDelay` of the current retry counter, which is
then incremented. -/
theorem wsRunFrom_cycle (s : WSState) :
    wsRunFrom s [.connectStart, .transportClose] =
      { s with socket := some { readyState := .closed
                                pingIntervalActive := false
                                oncloseAttached := true }
               retries := s.retries + 1
               retryPending := some (backoffDelay s.retries)
               scheduledDelays := s.scheduledDelays ++ [backoffDelay s.retries] } := rfl

theorem disconnect_trace (k : Nat) :
    (wsRun (disconnectEvents k)).scheduledDelays = (List.range k).map backoffDelay ∧
    (wsRun (disconnectEvents k)).retries = k := by
  induction k with
  | zero => exact ⟨rfl, rfl⟩
  | succ k ih =>
      have h : wsRun (disconnectEvents (k + 1)) =
          wsRunFrom (wsRun (disconnectEvents k)) [.connectStart, .transportClose] := by
        simp [wsRun, disconnectEvents, wsRunFrom_append]
      rw [h, wsRunFrom_cycle]
      refine ⟨?_, ?_⟩
      · simp [ih.1, ih.2, List.range_succ]
      · simp [ih.2]

/-! ## Claims about the connection machine -/

/-- C4: for every run of consecutive disconnects with no intervening
successful reconnect, the n-th reconnect delay (counting from 0) equals
`min(1000 * 2^n, 15000)` ms, producing the sequence
1000, 2000, 4000, 8000, 15000, 15000, …, non-decreasing and capped at 15000;
the delay is computed from the current retry count and the retry count is
incremented afterwards. -/
theorem C4_backoff_schedule :
    (∀ k n, n < k →
      (wsRun (disconnectEvents k)).scheduledDelays[n]? = some (backoffDelay n)) ∧
    (∀ n, backoffDelay n = min (1000 * 2 ^ n) 15000) ∧
    (∀ n, backoffDelay n ≤ backoffDelay (n + 1)) ∧
    (∀ n, backoffDelay n ≤ 15000) ∧
    (List.range 6).map backoffDelay = [1000, 2000, 4000, 8000, 15000, 15000] ∧
    (∀ (s : WSState) (sock : SocketState), s.socket = some sock →
      sock.oncloseAttached = true →
      (wsStep .transportClose s).scheduledDelays
          = s.scheduledDelays ++ [backoffDelay s.retries] ∧
      (wsStep .transportClose s).retries = s.retries + 1) := by
  refine ⟨?_, fun n => rfl, ?_, ?_, by decide, ?_⟩
  · intro k n hn
    rw [(disconnect_trace k).1]
    simp [hn]
  · intro n
    apply min_le_min _ le_rfl
    exact Nat.mul_le_mul_left _ (Nat.pow_le_pow_right (by norm_num) (Nat.le_succ n))
  · intro n
    exact min_le_right _ _
  · intro s sock hsock hatt
    simp [wsStep, hsock, hatt]

/-- Closed witness for C4: five consecutive disconnects schedule
1000, 2000, 4000, 8000, 15000, and a concrete close transition both logs the
computed delay and increments the retry counter. -/
theorem C4_backoff_schedule_witness :
    (wsRun (disconnectEvents 5)).scheduledDelays[4]? = some 15000 ∧
    (wsStep .transportClose openWS).scheduledDelays = [1000] ∧
    (wsStep .transportClose openWS).retries = 1 :=
  ⟨C4_backoff_schedule.1 5 4 (by decide),
   (C4_backoff_schedule.2.2.2.2.2 openWS
     { readyState := .opened, pingIntervalActive := true, oncloseAttached := true }
     rfl rfl).1,
   (C4_backoff_schedule.2.2.2.2.2 openWS
     { readyState := .opened, pingIntervalActive := true, oncloseAttached := true }
     rfl rfl).2⟩

/-- C5: the retry count is reset to 0 exactly on the transition into the Open
state (a successful transport handshake) and at no other transition, so after
any successful reconnect the next disconnect's computed backoff delay
restarts at 1000 ms. -/
theorem C5_backoff_reset :
    (∀ (s : WSState) (sock : SocketState), s.socket = some sock →
      (wsStep .transportOpen s).retries = 0) ∧
    (∀ (s : WSState) (e : WSEvent), e ≠ .transportOpen →
      s.retries ≤ (wsStep e s).retries) ∧
    (∀ (s : WSState) (sock : SocketState), s.socket = some sock →
      sock.oncloseAttached = true →
      (wsStep .transportClose (wsStep .transportOpen s)).retryPending = some 1000 ∧
      (wsStep .transportClose (wsStep .transportOpen s)).scheduledDelays
          = s.scheduledDelays ++ [1000]) := by
  refine ⟨?_, ?_, ?_⟩
  · intro s sock hsock
    simp [wsStep, hsock]
  · intro s e he
    obtain ⟨sk, r, rp, sd, sf, cu⟩ := s
    cases e with
    | connectStart => simp [wsStep]
    | transportOpen => exact absurd rfl he
    | heartbeatTick =>
        cases sk with
        | none => simp [wsStep]
        | some sock =>
            simp only [wsStep]
            split <;> simp
    | transportClose =>
        cases sk with
        | none => simp [wsStep]
        | some sock =>
            simp only [wsStep]
            split <;> simp
    | transportError =>
        cases sk with
        | none => simp [wsStep]
        | some sock => simp [wsStep]
    | cleanup =>
        cases sk with
        | none => simp [wsStep]
        | some sock => simp [wsStep]
  · intro s sock hsock hatt
    constructor <;> simp [wsStep, hsock, hatt, backoffDelay, baseDelayMs, capDelayMs]

/-- Closed witness for C5: from the freshly opened session (retry counter
already reset to 0), a disconnect schedules exactly 1000 ms. -/
theorem C5_backoff_reset_witness :
    (wsStep .transportOpen openWS).retries = 0 ∧
    (wsStep .transportClose (wsStep .transportOpen openWS)).retryPending = some 1000 :=
  ⟨C5_backoff_reset.1 openWS
     { readyState := .opened, pingIntervalActive := true, oncloseAttached := true } rfl,
   (C5_backoff_reset.2.2 openWS
     { readyState := .opened, pingIntervalActive := true, oncloseAttached := true }
     rfl rfl).1⟩

/-- C6: a ping frame is never sent while the session is not Open — the only
event that ever sends a frame is a heartbeat tick of a still-scheduled
interval whose transport is OPEN at send time; while Open the heartbeat
(period 25 000 ms) does send the ping. -/
theorem C6_heartbeat_gating :
    (∀ (s : WSState) (e : WSEvent), (wsStep e s).sentFrames ≠ s.sentFrames →
      e = .heartbeatTick ∧
      ∃ sock, s.socket = some sock ∧ sock.readyState = .opened ∧
        sock.pingIntervalActive = true ∧
        (wsStep e s).sentFrames = s.sentFrames ++ [pingFrame]) ∧
    heartbeatIntervalMs = 25000 ∧
    (∀ (s : WSState) (sock : SocketState), s.socket = some sock →
      sock.pingIntervalActive = true → sock.readyState = .opened →
      (wsStep .heartbeatTick s).sentFrames = s.sentFrames ++ [pingFrame]) := by
  refine ⟨?_, rfl, ?_⟩
  · intro s e hne
    obtain ⟨sk, r, rp, sd, sf, cu⟩ := s
    cases e with
    | connectStart => exact absurd rfl hne
    | transportOpen =>
        exfalso; apply hne
        cases sk <;> simp [wsStep]
    | heartbeatTick =>
        refine ⟨rfl, ?_⟩
        cases sk with
        | none => simp [wsStep] at hne
        | some sock =>
            simp only [wsStep] at hne ⊢
            by_cases hc : sock.pingIntervalActive = true ∧ sock.readyState = .opened
            · exact ⟨sock, rfl, hc.2, hc.1, by rw [if_pos hc]⟩
            · rw [if_neg hc] at hne; exact absurd rfl hne
    | transportClose =>
        exfalso; apply hne
        cases sk with
        | none => simp [wsStep]
        | some sock =>
            simp only [wsStep]
            split <;> rfl
    | transportError =>
        exfalso; apply hne
        cases sk <;> simp [wsStep]
    | cleanup =>
        exfalso; apply hne
        cases sk <;> simp [wsStep]
  · intro s sock hsock hping hopen
    simp [wsStep, hsock, hping, hopen]

/-- Closed witness for C6: a tick on the open session sends the ping, and the
gating conclusion holds at that concrete input. -/
theorem C6_heartbeat_gating_witness :
    (wsStep .heartbeatTick openWS).sentFrames = openWS.sentFrames ++ [pingFrame] ∧
    ((wsStep .heartbeatTick openWS).sentFrames ≠ openWS.sentFrames →
      WSEvent.heartbeatTick = WSEvent.heartbeatTick) :=
  ⟨C6_heartbeat_gating.2.2 openWS
     { readyState := .opened, pingIntervalActive := true, oncloseAttached := true }
     rfl rfl rfl,
   fun h => (C6_heartbeat_gating.1 openWS .heartbeatTick h).1⟩

/-- C2 is refuted on the code: tearing down an open session leaves the
heartbeat interval scheduled. The cleanup (useWebSocket.js lines 63–69) nulls
`onclose` before calling `close()`, so the only `clearInterval` for
`socket._pingInterval` (line 51, inside `onclose`) never runs: after
`close()` returns, the reconnect timer is cancelled but the heartbeat
interval still fires every 25 s (its sends are suppressed only by the
`readyState` guard). -/
theorem C2_teardown_leaks_heartbeat_interval :
    (wsRun [.connectStart, .transportOpen, .cleanup]).cleanedUp = true ∧
    (wsRun [.connectStart, .transportOpen, .cleanup]).retryPending = none ∧
    (wsRun [.connectStart, .transportOpen, .cleanup]).socket.map
        SocketState.pingIntervalActive = some true := by
  refine ⟨rfl, rfl, rfl⟩

/-- C7: for every inbound frame whose payload is not valid JSON, the message
handler catches the decode error per-message: delivery is a total no-op — the
handler state, every entity store and the session itself are untouched. -/
theorem C7_malformed_frame_tolerance {σ : Type} (st : HookState σ) (err : String) :
    onmessage (Except.error err) st = st := rfl

/-! ## Helper lemmas on the App handlers -/

theorem map_id_on {α : Type} (l : List α) (f : α → α) (h : ∀ x ∈ l, f x = x) :
    l.map f = l := by
  induction l with
  | nil => rfl
  | cons a t ih =>
      simp only [List.map_cons]
      rw [h a (by simp), ih (fun x hx => h x (by simp [hx]))]

theorem addLog_incidents (e : LogEntry) (s : AppState) :
    (App.addLog e s).incidents = s.incidents := rfl

theorem addLog_incidentIds (e : LogEntry) (s : AppState) :
    (App.addLog e s).incidentIds = s.incidentIds := rfl

theorem addLog_zoneOverrides (e : LogEntry) (s : AppState) :
    (App.addLog e s).zoneOverrides = s.zoneOverrides := rfl

theorem addIncident_of_mem {inc : Incident} {s : AppState}
    (h : inc.id ∈ s.incidentIds) : App.addIncident inc s = s := by
  simp [App.addIncident, h]

theorem addIncident_of_not_mem {inc : Incident} {s : AppState}
    (h : inc.id ∉ s.incidentIds) :
    App.addIncident inc s =
      { s with incidentIds := inc.id :: s.incidentIds
               incidents := (inc :: s.incidents).take 50 } := by
  simp [App.addIncident, h]

theorem addIncident_mem_ids (inc : Incident) (s : AppState) :
    inc.id ∈ (App.addIncident inc s).incidentIds := by
  by_cases h : inc.id ∈ s.incidentIds
  · rw [addIncident_of_mem h]; exact h
  · rw [addIncident_of_not_mem h]; exact List.mem_cons_self _ _

theorem onIncident_incidents (inc : Incident) (s : AppState) :
    (App.onIncident inc s).incidents = (App.addIncident inc s).incidents := rfl

theorem onIncident_incidentIds (inc : Incident) (s : AppState) :
    (App.onIncident inc s).incidentIds = (App.addIncident inc s).incidentIds := rfl

theorem onAgentStatus_entity_stores (d : AgentStatusData) (s : AppState) :
    (App.onAgentStatus d s).incidents = s.incidents ∧
    (App.onAgentStatus d s).incidentIds = s.incidentIds ∧
    (App.onAgentStatus d s).zoneOverrides = s.zoneOverrides := by
  unfold App.onAgentStatus App.addLog
  split
  · exact ⟨rfl, rfl, rfl⟩
  · split
    · exact ⟨rfl, rfl, rfl⟩
    · split
      · exact ⟨rfl, rfl, rfl⟩
      · exact ⟨rfl, rfl, rfl⟩

theorem onThresholdUpdate_entity_stores (d : ThresholdData) (s : AppState) :
    (App.onThresholdUpdate d s).incidents = s.incidents ∧
    (App.onThresholdUpdate d s).incidentIds = s.incidentIds ∧
    (App.onThresholdUpdate d s).zoneOverrides = s.zoneOverrides := by
  unfold App.onThresholdUpdate App.addLog
  split
  · exact ⟨rfl, rfl, rfl⟩
  · exact ⟨rfl, rfl, rfl⟩

theorem onEvaluation_incidents (d : EvaluationData) (s : AppState) :
    (App.onEvaluation d s).incidents = s.incidents.map (fun inc =>
      if inc.id == d.incident_id then
        { inc with confidence_score := d.confidence_score
                   incident_type := d.incident_type
                   commodities_affected := d.commodities_affected }
      else inc) := rfl

/-! ## Claims about dispatch and the App entity stores -/

/-- C9: dispatch invokes exactly the handler registered for the envelope's
type in the registration current at dispatch time (not the one captured when
the session was opened); with no handler registered for the type — including
any unknown type and `heartbeat` — dispatch is a no-op. -/
theorem C9_dispatch_current_registration :
    (∀ (σ : Type) (h1 : Handlers σ) (msg : Envelope) (st : HookState σ),
      onmessage (Except.ok msg) (rerender h1 st) =
        { st with handlersRef := h1, appState := dispatch h1 msg st.appState }) ∧
    (∀ (σ : Type) (h : Handlers σ) (ty : String) (s : σ),
      dispatch h (.unknown ty) s = s) ∧
    (∀ (σ : Type) (h : Handlers σ) (s : σ), dispatch h .heartbeat s = s) ∧
    (∀ (σ : Type) (h : Handlers σ) (d : InitData) (s : σ),
      h.onInit = none → dispatch h (.init d) s = s) ∧
    (∀ (σ : Type) (h : Handlers σ) (d : List Ship) (s : σ),
      h.onShips = none → dispatch h (.ships d) s = s) ∧
    (∀ (σ : Type) (h : Handlers σ) (d : Incident) (s : σ),
      h.onIncident = none → dispatch h (.incident d) s = s) ∧
    (∀ (σ : Type) (h : Handlers σ) (d : EvaluationData) (s : σ),
      h.onEvaluation = none → dispatch h (.evaluation d) s = s) ∧
    (∀ (σ : Type) (h : Handlers σ) (d : AgentStatusData) (s : σ),
      h.onAgentStatus = none → dispatch h (.agent_status d) s = s) ∧
    (∀ (σ : Type) (h : Handlers σ) (d : ThresholdData) (s : σ),
      h.onThresholdUpdate = none → dispatch h (.threshold_update d) s = s) ∧
    (∀ (σ : Type) (h : Handlers σ) (d : ReportData) (s : σ),
      h.onReport = none → dispatch h (.report d) s = s) ∧
    (∀ (σ : Type) (h : Handlers σ) (d : ModeChangeData) (s : σ),
      h.onModeChange = none → dispatch h (.mode_change d) s = s) ∧
    (∀ (σ : Type) (h : Handlers σ) (d : InitData) (s : σ) (f : InitData → σ → σ),
      h.onInit = some f → dispatch h (.init d) s = f d s) ∧
    (∀ (σ : Type) (h : Handlers σ) (d : List Ship) (s : σ) (f : List Ship → σ → σ),
      h.onShips = some f → dispatch h (.ships d) s = f d s) ∧
    (∀ (σ : Type) (h : Handlers σ) (d : Incident) (s : σ) (f : Incident → σ → σ),
      h.onIncident = some f → dispatch h (.incident d) s = f d s) ∧
    (∀ (σ : Type) (h : Handlers σ) (d : EvaluationData) (s : σ)
        (f : EvaluationData → σ → σ),
      h.onEvaluation = some f → dispatch h (.evaluation d) s = f d s) ∧
    (∀ (σ : Type) (h : Handlers σ) (d : AgentStatusData) (s : σ)
        (f : AgentStatusData → σ → σ),
      h.onAgentStatus = some f → dispatch h (.agent_status d) s = f d s) ∧
    (∀ (σ : Type) (h : Handlers σ) (d : ThresholdData) (s : σ)
        (f : ThresholdData → σ → σ),
      h.onThresholdUpdate = some f → dispatch h (.threshold_update d) s = f d s) ∧
    (∀ (σ : Type) (h : Handlers σ) (d : ReportData) (s : σ) (f : ReportData → σ → σ),
      h.onReport = some f → dispatch h (.report d) s = f d s) ∧
    (∀ (σ : Type) (h : Handlers σ) (d : ModeChangeData) (s : σ)
        (f : ModeChangeData → σ → σ),
      h.onModeChange = some f → dispatch h (.mode_change d) s = f d s) := by
  refine ⟨fun σ h1 msg st => rfl, fun σ h ty s => rfl, fun σ h s => rfl,
    ?_, ?_, ?_, ?_, ?_, ?_, ?_, ?_, ?_, ?_, ?_, ?_, ?_, ?_, ?_, ?_⟩ <;>
  · intros σ h d s
    intro f
    try intro hf
    all_goals simp_all [dispatch, callOpt]

/-- Closed witness for C9: an empty registration ignores an `init` envelope,
and the concrete App registration routes `init` to `App.onInit`. -/
theorem C9_dispatch_current_registration_witness :
    dispatch ({} : Handlers AppState) (.init sampleInit) initialAppState
        = initialAppState ∧
    dispatch appHandlers (.init sampleInit) initialAppState
        = App.onInit sampleInit initialAppState :=
  ⟨C9_dispatch_current_registration.2.2.2.1 AppState {} sampleInit initialAppState rfl,
   C9_dispatch_current_registration.2.2.2.2.2.2.2.2.2.2.2.1 AppState appHandlers
     sampleInit initialAppState App.onInit rfl⟩

theorem addIncident_zoneOverrides (inc : Incident) (s : AppState) :
    (App.addIncident inc s).zoneOverrides = s.zoneOverrides := by
  by_cases h : inc.id ∈ s.incidentIds
  · rw [addIncident_of_mem h]
  · rw [addIncident_of_not_mem h]

/-- C8: delivering two `incident` envelopes with the same id yields exactly one
stored incident (the second delivery leaves the incident store unchanged),
and delivering an `evaluation` envelope whose incident id was never seen
leaves the incident store's contents unchanged — no bare record is inserted. -/
theorem C8_incident_dedup_and_orphan_evaluation :
    (∀ (s : AppState) (inc : Incident),
      (dispatch appHandlers (.incident inc)
          (dispatch appHandlers (.incident inc) s)).incidents
        = (dispatch appHandlers (.incident inc) s).incidents) ∧
    (∀ (s : AppState) (inc : Incident),
      inc.id ∉ s.incidentIds → (∀ j ∈ s.incidents, j.id ≠ inc.id) →
      ((dispatch appHandlers (.incident inc)
          (dispatch appHandlers (.incident inc) s)).incidents.filter
            (fun j => j.id == inc.id)).length = 1) ∧
    (∀ (s : AppState) (ev : EvaluationData),
      (∀ j ∈ s.incidents, j.id ≠ ev.incident_id) →
      (dispatch appHandlers (.evaluation ev) s).incidents = s.incidents) := by
  have hdisp : ∀ (inc : Incident) (t : AppState),
      dispatch appHandlers (.incident inc) t = App.onIncident inc t := fun _ _ => rfl
  have hsecond : ∀ (s : AppState) (inc : Incident),
      (dispatch appHandlers (.incident inc)
          (dispatch appHandlers (.incident inc) s)).incidents
        = (dispatch appHandlers (.incident inc) s).incidents := by
    intro s inc
    rw [hdisp, hdisp]
    have hmem : inc.id ∈ (App.onIncident inc s).incidentIds := by
      rw [onIncident_incidentIds]; exact addIncident_mem_ids inc s
    rw [onIncident_incidents (s := App.onIncident inc s), addIncident_of_mem hmem]
  refine ⟨hsecond, ?_, ?_⟩
  · intro s inc hnotmem hno
    rw [hsecond, hdisp, onIncident_incidents, addIncident_of_not_mem hnotmem]
    have h50 : (50 : Nat) = 49 + 1 := rfl
    have htake : (inc :: s.incidents).take 50 = inc :: s.incidents.take 49 := by
      rw [h50, List.take_succ_cons]
    simp only [htake]
    rw [List.filter_cons_of_pos (by simp)]
    have hnil : (s.incidents.take 49).filter (fun j => j.id == inc.id) = [] := by
      rw [List.filter_eq_nil_iff]
      intro a ha
      have : a.id ≠ inc.id := hno a (List.take_subset _ _ ha)
      simp [this]
    rw [hnil]
    rfl
  · intro s ev hno
    have hde : dispatch appHandlers (.evaluation ev) s = App.onEvaluation ev s := rfl
    rw [hde, onEvaluation_incidents]
    apply map_id_on
    intro x hx
    have : x.id ≠ ev.incident_id := hno x hx
    simp [this]

/-- Closed witness for C8: delivering the sample incident twice to the fresh
state stores it exactly once, and the orphan evaluation leaves the fresh
incident store unchanged. -/
theorem C8_incident_dedup_and_orphan_evaluation_witness :
    ((dispatch appHandlers (.incident sampleIncident)
        (dispatch appHandlers (.incident sampleIncident) initialAppState)).incidents.filter
          (fun j => j.id == sampleIncident.id)).length = 1 ∧
    (dispatch appHandlers (.evaluation sampleEvaluation) initialAppState).incidents
        = initialAppState.incidents :=
  ⟨C8_incident_dedup_and_orphan_evaluation.2.1 initialAppState sampleIncident
     (by simp [initialAppState]) (by simp [initialAppState]),
   C8_incident_dedup_and_orphan_evaluation.2.2 initialAppState sampleEvaluation
     (by simp [initialAppState])⟩

/-- C10: the visible incident collection never exceeds 50 incidents — every
message handler preserves the bound; an accepted `incident` is prepended and
the collection truncated to the 50 most recent; the accepted id stays in the
de-duplication set, so redelivering an id already in the set (for example one
whose incident was evicted by the cap) never re-inserts it. -/
theorem C10_incident_cap :
    (∀ (msg : Envelope) (s : AppState), s.incidents.length ≤ 50 →
      (dispatch appHandlers msg s).incidents.length ≤ 50) ∧
    (∀ (s : AppState) (inc : Incident), inc.id ∉ s.incidentIds →
      (dispatch appHandlers (.incident inc) s).incidents
        = (inc :: s.incidents).take 50) ∧
    (∀ (s : AppState) (inc : Incident),
      inc.id ∈ (dispatch appHandlers (.incident inc) s).incidentIds) ∧
    (∀ (s : AppState) (inc : Incident), inc.id ∈ s.incidentIds →
      (dispatch appHandlers (.incident inc) s).incidents = s.incidents) := by
  refine ⟨?_, ?_, ?_, ?_⟩
  · intro msg s h
    cases msg with
    | init d => exact h
    | ships d => exact h
    | incident d =>
        show (App.onIncident d s).incidents.length ≤ 50
        rw [onIncident_incidents]
        by_cases hm : d.id ∈ s.incidentIds
        · rw [addIncident_of_mem hm]; exact h
        · rw [addIncident_of_not_mem hm]
          simp only [List.length_take]
          exact min_le_left _ _
    | evaluation d =>
        show (App.onEvaluation d s).incidents.length ≤ 50
        rw [onEvaluation_incidents, List.length_map]
        exact h
    | agent_status d =>
        show (App.onAgentStatus d s).incidents.length ≤ 50
        rw [(onAgentStatus_entity_stores d s).1]
        exact h
    | threshold_update d =>
        show (App.onThresholdUpdate d s).incidents.length ≤ 50
        rw [(onThresholdUpdate_entity_stores d s).1]
        exact h
    | report d => exact h
    | mode_change d => exact Nat.zero_le _
    | heartbeat => exact h
    | unknown ty => exact h
  · intro s inc hm
    show (App.onIncident inc s).incidents = _
    rw [onIncident_incidents, addIncident_of_not_mem hm]
  · intro s inc
    show inc.id ∈ (App.onIncident inc s).incidentIds
    rw [onIncident_incidentIds]
    exact addIncident_mem_ids inc s
  · intro s inc hm
    show (App.onIncident inc s).incidents = s.incidents
    rw [onIncident_incidents, addIncident_of_mem hm]

/-- Closed witness for C10: the cap holds when the sample incident reaches the
fresh state, the incident is prepended, its id is admitted, and a redelivery
with the id already admitted changes nothing. -/
theorem C10_incident_cap_witness :
    (dispatch appHandlers (.incident sampleIncident) initialAppState).incidents.length ≤ 50 ∧
    (dispatch appHandlers (.incident sampleIncident) initialAppState).incidents
        = ([sampleIncident] : List Incident).take 50 ∧
    sampleIncident.id ∈
      (dispatch appHandlers (.incident sampleIncident) initialAppState).incidentIds ∧
    (dispatch appHandlers (.incident sampleIncident) c3State).incidents
        = c3State.incidents :=
  ⟨C10_incident_cap.1 (.incident sampleIncident) initialAppState (by simp [initialAppState]),
   C10_incident_cap.2.1 initialAppState sampleIncident (by simp [initialAppState]),
   C10_incident_cap.2.2.1 initialAppState sampleIncident,
   C10_incident_cap.2.2.2 c3State sampleIncident (by simp [c3State, sampleIncident])⟩

/-- C3 is false on the code: an ordinary `init` snapshot (no `mode_change`
involved) clears the incident de-duplication set. App.jsx lines 52–54 do this
deliberately ("Clear dedup set so backend-restarted incidents aren't
blocked"). Concretely: a state that has admitted id `inc-1` loses it on the
next `init`. -/
theorem C3_counterexample :
    c3State.incidentIds = ["inc-1"] ∧
    (dispatch appHandlers (.init sampleInit) c3State).incidentIds = [] :=
  ⟨rfl, rfl⟩

/-- C3 amended: the incident de-duplication set is cleared by **every**
ordinary `init` snapshot as well as by `mode_change`; between consecutive
`init`/`mode_change` deliveries it is monotonically non-decreasing. -/
theorem C3_dedup_cleared_by_init :
    (∀ (d : InitData) (s : AppState),
      (dispatch appHandlers (.init d) s).incidentIds = []) ∧
    (∀ (d : ModeChangeData) (s : AppState),
      (dispatch appHandlers (.mode_change d) s).incidentIds = []) ∧
    (∀ (msg : Envelope) (s : AppState),
      msg.type ≠ "init" → msg.type ≠ "mode_change" →
      s.incidentIds ⊆ (dispatch appHandlers msg s).incidentIds) := by
  refine ⟨fun d s => rfl, fun d s => rfl, ?_⟩
  intro msg s h1 h2
  cases msg with
  | init d => exact absurd rfl h1
  | ships d => exact List.Subset.refl _
  | incident d =>
      show s.incidentIds ⊆ (App.onIncident d s).incidentIds
      rw [onIncident_incidentIds]
      by_cases hm : d.id ∈ s.incidentIds
      · rw [addIncident_of_mem hm]
        exact List.Subset.refl _
      · rw [addIncident_of_not_mem hm]
        exact List.subset_cons_self _ _
  | evaluation d => exact List.Subset.refl _
  | agent_status d =>
      show s.incidentIds ⊆ (App.onAgentStatus d s).incidentIds
      rw [(onAgentStatus_entity_stores d s).2.1]
      exact List.Subset.refl _
  | threshold_update d =>
      show s.incidentIds ⊆ (App.onThresholdUpdate d s).incidentIds
      rw [(onThresholdUpdate_entity_stores d s).2.1]
      exact List.Subset.refl _
  | report d => exact List.Subset.refl _
  | mode_change d => exact absurd rfl h2
  | heartbeat => exact List.Subset.refl _
  | unknown ty => exact List.Subset.refl _

/-- Closed witness for C3 (amended): a concrete `init` clears the concrete
non-empty set, and an `incident` delivery only grows it. -/
theorem C3_dedup_cleared_by_init_witness :
    (dispatch appHandlers (.init sampleInit) c3State).incidentIds = [] ∧
    c3State.incidentIds ⊆
      (dispatch appHandlers (.incident sampleIncident) c3State).incidentIds :=
  ⟨C3_dedup_cleared_by_init.1 sampleInit c3State,
   C3_dedup_cleared_by_init.2.2 (.incident sampleIncident) c3State
     (by decide) (by decide)⟩

/-! ## Zone-override claims -/

theorem getZoneGeo_of_override {name : String} {hz : Hotzone}
    {overrides : List (String × Geo)} {ov : Geo}
    (h : lookupKey overrides name = some ov) :
    getZoneGeo name hz overrides = ov := by
  unfold getZoneGeo
  rw [h]

theorem getZoneGeo_of_no_override {name : String} {hz : Hotzone}
    {overrides : List (String × Geo)}
    (h : lookupKey overrides name = none) :
    getZoneGeo name hz overrides = canonicalGeo hz := by
  unfold getZoneGeo
  rw [h]

/-- C1 is false on the code: delivering `mode_change` does **not** clear the
zone overrides, and rendering keeps using the override, not the canonical
geometry. App.jsx `onModeChange` (lines 56–69) resets ships, incidents,
thresholds, report, agent status, logs and the de-duplication set, but never
calls `setZoneOverrides`. Concretely: the `Hormuz` override survives a
`mode_change` and `getZoneGeo` keeps returning it. -/
theorem C1_counterexample :
    (dispatch appHandlers (.mode_change sampleModeChange) c1State).zoneOverrides
        = [("Hormuz", hormuzOverride)] ∧
    getZoneGeo "Hormuz" hormuzHz
        (dispatch appHandlers (.mode_change sampleModeChange) c1State).zoneOverrides
        = hormuzOverride ∧
    hormuzOverride ≠ canonicalGeo hormuzHz := by
  refine ⟨rfl, rfl, ?_⟩
  intro h
  have := congrArg Geo.centerLon h
  simp [hormuzOverride, canonicalGeo, hormuzHz] at this
  norm_num at this

/-- C1 amended: whenever a zone has a local override geometry, every rendering
pass uses the override instead of the canonical bounding-box geometry, and the
override survives **every** server message — the ordinary snapshots (`init`,
`ships`) and also `mode_change`: no server message clears the overrides, so
rendering reverts to canonical geometry only for zones that never had an
override (the overrides live until the component is torn down). -/
theorem C1_override_precedence :
    (∀ (name : String) (hz : Hotzone) (overrides : List (String × Geo)) (ov : Geo),
      lookupKey overrides name = some ov → getZoneGeo name hz overrides = ov) ∧
    (∀ (name : String) (hz : Hotzone) (overrides : List (String × Geo)),
      lookupKey overrides name = none →
      getZoneGeo name hz overrides = canonicalGeo hz) ∧
    (∀ (hotzones : List (String × Hotzone)) (overrides : List (String × Geo))
        (name : String) (hz : Hotzone) (ov : Geo),
      (name, hz) ∈ hotzones → lookupKey overrides name = some ov →
      ({ name := name, color := hz.color, geo := ov } : HotzoneFeature)
        ∈ buildHotzoneFeatures hotzones overrides) ∧
    (∀ (msg : Envelope) (s : AppState),
      (dispatch appHandlers msg s).zoneOverrides = s.zoneOverrides) := by
  refine ⟨fun name hz overrides ov h => getZoneGeo_of_override h,
    fun name hz overrides h => getZoneGeo_of_no_override h, ?_, ?_⟩
  · intro hotzones overrides name hz ov hmem hov
    have : ({ name := name, color := hz.color, geo := ov } : HotzoneFeature)
        = (fun p : String × Hotzone =>
            ({ name := p.1, color := p.2.color,
               geo := getZoneGeo p.1 p.2 overrides } : HotzoneFeature)) (name, hz) := by
      simp [getZoneGeo_of_override hov]
    rw [this]
    exact List.mem_map_of_mem _ hmem
  · intro msg s
    cases msg with
    | init d => rfl
    | ships d => rfl
    | incident d =>
        show (App.onIncident d s).zoneOverrides = s.zoneOverrides
        unfold App.onIncident
        rw [addLog_zoneOverrides, addIncident_zoneOverrides]
    | evaluation d => rfl
    | agent_status d => exact (onAgentStatus_entity_stores d s).2.2
    | threshold_update d => exact (onThresholdUpdate_entity_stores d s).2.2
    | report d => rfl
    | mode_change d => rfl
    | heartbeat => rfl
    | unknown ty => rfl

/-- Closed witness for C1 (amended): the concrete `Hormuz` override is what
`getZoneGeo` returns, it appears in the rendered feature collection, and a
concrete `ships` snapshot leaves the overrides untouched. -/
theorem C1_override_precedence_witness :
    getZoneGeo "Hormuz" hormuzHz c1State.zoneOverrides = hormuzOverride ∧
    ({ name := "Hormuz", color := hormuzHz.color, geo := hormuzOverride } : HotzoneFeature)
      ∈ buildHotzoneFeatures c1State.hotzones c1State.zoneOverrides ∧
    (dispatch appHandlers (.ships []) c1State).zoneOverrides = c1State.zoneOverrides :=
  ⟨C1_override_precedence.1 "Hormuz" hormuzHz c1State.zoneOverrides hormuzOverride rfl,
   C1_override_precedence.2.2.1 c1State.hotzones c1State.zoneOverrides
     "Hormuz" hormuzHz hormuzOverride (by simp [c1State]) rfl,
   C1_override_precedence.2.2.2 (.ships []) c1State⟩

end HackEurope
